import Mathlib

/-!
Verification of the two core subsystems of the youtube-chat-ai repository:
the channel-ingestion pipeline (`src/server/index.js`, `/api/youtube/channel`
handler) and the tool-orchestration loop (`chatWithTools` and the client-side
JSON tool executor `executeJsonTool`).

The JavaScript is shallowly embedded: JS numbers that the code treats as
integers become `Int`/`Nat`; a value that may be `null`/`undefined` becomes
an `Option`; JS `NaN` flowing out of `parseInt` is modelled by a dedicated
constructor; fallible steps return `Except`/`Option`.  External platform
primitives (the HTTP fetch, `JSON.parse`, `new Date`, the Gemini SDK and the
`yt-dlp` subprocess) are modelled as explicit inputs or function parameters,
so every pipeline function here is executable.
-/

set_option maxRecDepth 4096

namespace YtChat

/-! ### JavaScript string and number primitives used by the server code -/

/-- The characters JavaScript `\s` (and `String.prototype.trim`) treats as
whitespace, restricted to the ASCII range that the scraped pages use. -/
def jsWs (c : Char) : Bool :=
  c == ' ' || c == '\t' || c == '\n' || c == '\r' || c == '\x0b' || c == '\x0c'

/-- Decimal-digit run parser: `digitsVal acc cs` consumes leading digits of
`cs`, returning the accumulated value and whether at least one digit was seen. -/
def digitsVal : Nat → Bool → List Char → Option Nat
  | acc, seen, [] => if seen then some acc else none
  | acc, seen, c :: cs =>
    if c.isDigit then digitsVal (acc * 10 + (c.toNat - '0'.toNat)) true cs
    else if seen then some acc else none

/-- JS `parseInt(s, 10)`: skip leading whitespace, optional sign, then the
longest run of decimal digits; `none` models the `NaN` result when no digit
is found. -/
def jsParseInt (s : String) : Option Int :=
  let cs := s.data.dropWhile jsWs
  match cs with
  | '-' :: rest => (digitsVal 0 false rest).map (fun n => -(n : Int))
  | '+' :: rest => (digitsVal 0 false rest).map (fun n => (n : Int))
  | rest => (digitsVal 0 false rest).map (fun n => (n : Int))

/-- `s.replace(/,/g, '')`: drop every comma (used on comment-count strings). -/
def stripCommas (s : String) : String :=
  ⟨s.data.filter (fun c => c ≠ ',')⟩

/-! ### C1 — the effective item limit of the ingestion orchestrator

`src/server/index.js:360`:
`const limit = Math.min(videoRenderers.length, Math.max(1, Number(maxVideos) || 10));`
with `const { url, maxVideos = 10 } = req.body;` (line 261). -/

/-- The `maxVideos` field of the request body: absent, a non-numeric value
(`Number(·)` gives `NaN`), or an integral number. -/
inductive MaxVideosInput where
  | absent
  | nonNumeric
  | num (n : Int)
deriving DecidableEq, Repr

/-- `Number(maxVideos)` after the destructuring default `maxVideos = 10`:
`none` models `NaN`. -/
def maxVideosNumber : MaxVideosInput → Option Int
  | .absent => some 10
  | .nonNumeric => none
  | .num n => some n

/-- `Number(maxVideos) || 10`: `NaN` and `0` are falsy, so both fall back
to `10`. -/
def jsOrTen : Option Int → Int
  | none => 10
  | some n => if n = 0 then 10 else n

/-- The effective per-run item limit computed by the orchestrator
(line 360), given how many video renderers navigation found. -/
def ingestLimit (available : Nat) (mv : MaxVideosInput) : Int :=
  min (available : Int) (max 1 (jsOrTen (maxVideosNumber mv)))

/-- Modelled from the spec: `clamp(value, lo, hi)`. -/
def clamp (v lo hi : Int) : Int := min hi (max lo v)

/-- Modelled from the spec: the limit the claim asserts, namely
`min(available entries, clamp(requested max, 1, 100))`, the requested value
defaulting to 10 when absent or non-numeric. -/
def claimedLimit (available : Nat) (mv : MaxVideosInput) : Int :=
  min (available : Int) (clamp (match mv with | .num n => n | _ => 10) 1 100)

/-- The amended request defaulting: `10` when `maxVideos` is absent,
non-numeric, or zero, otherwise the requested number itself (no upper cap). -/
def requestedOrTen : MaxVideosInput → Int
  | .num n => if n = 0 then 10 else n
  | _ => 10

/-! ### C3 — numeric enrichment fields (`src/server/index.js:404-425`) -/

/-- A JS number-or-null field as the enrichment code can leave it:
`null`, `NaN` (an unguarded `parseInt` miss), or an integer. -/
inductive JsNum where
  | null
  | nan
  | int (n : Int)
deriving DecidableEq, Repr

/-- One entry of `info.response.engagementPanels`, reduced to the only field
the code reads: `panel?.engagementPanelSectionListRenderer?.header
?.engagementPanelTitleHeaderRenderer?.contextualInfo?.runs?.[0]?.text`
(the optional chain collapsed into one optional string). -/
structure EngagementPanel where
  countText : Option String
deriving Repr

/-- `videoData.view_count = details.viewCount ? parseInt(details.viewCount, 10) : null;`
(line 404): a truthiness test, then an unguarded `parseInt`. -/
def viewCountField : Option String → JsNum
  | none => .null
  | some s =>
    if s = "" then .null
    else match jsParseInt s with
      | some n => .int n
      | none => .nan

/-- `videoData.like_count = details.likes != null ? parseInt(details.likes, 10) : null;`
(line 405): a null test (not truthiness), then an unguarded `parseInt`. -/
def likeCountField : Option String → JsNum
  | none => .null
  | some s =>
    match jsParseInt s with
    | some n => .int n
    | none => .nan

/-- The engagement-panel fallback loop (lines 414-424): first panel whose
`countText` is truthy and whose comma-stripped `parseInt` is not `NaN` wins;
otherwise the initial `null` stands. -/
def panelScan : List EngagementPanel → JsNum
  | [] => .null
  | p :: rest =>
    match p.countText with
    | none => panelScan rest
    | some t =>
      if t = "" then panelScan rest
      else match jsParseInt (stripCommas t) with
        | some n => .int n
        | none => panelScan rest

/-- `comment_count` (lines 408-425): path 1 is a direct `parseInt` of
`info.player_response?.videoDetails?.commentCount` whenever that is non-null
(no `isNaN` guard, no comma stripping); path 2 scans the engagement panels. -/
def commentCountField (ccRaw : Option String) (panels : List EngagementPanel) : JsNum :=
  match ccRaw with
  | some s =>
    match jsParseInt s with
    | some n => .int n
    | none => .nan
  | none => panelScan panels

/-! ### C7 — navigating the parsed blob to the video renderer list
(`src/server/index.js:321-356`) -/

/-- A video renderer entry, reduced to the one field the orchestrator loop
reads (`vr?.videoId`); the remaining display fields play no part in any
claim here. -/
structure VideoRenderer where
  videoId : Option String
deriving DecidableEq, Repr

/-- One element of `richGridRenderer.contents`; the optional chain
`c?.richItemRenderer?.content?.videoRenderer` is collapsed into a single
optional field. -/
structure GridItem where
  videoRenderer : Option VideoRenderer
deriving Repr

/-- One element of a legacy section's item list; models
`it?.gridVideoRenderer`. -/
structure LegacyItem where
  gridVideoRenderer : Option VideoRenderer
deriving Repr

/-- One element of `sectionListRenderer.contents`; the chain
`section?.itemSectionRenderer?.contents?.[0]?.gridRenderer?.items || []`
is collapsed into the item list (absent chain = `[]`). -/
structure LegacySection where
  items : List LegacyItem
deriving Repr

/-- `tab.tabRenderer`, keeping the two content containers the code probes:
`content?.richGridRenderer?.contents` and `content?.sectionListRenderer`
(`.contents` of the latter collapsed into the list). -/
structure TabRenderer where
  richGridContents : Option (List GridItem)
  sectionList : Option (List LegacySection)
deriving Repr

/-- One element of `ytData.contents.twoColumnBrowseResultsRenderer.tabs`. -/
structure ChannelTab where
  tabRenderer : Option TabRenderer
deriving Repr

/-- The legacy inner loop (lines 342-349): each section reassigns
`videoRenderers` to its filtered item list and breaks on the first
non-empty one; all-empty leaves the empty list. -/
def legacyScan : List LegacySection → List VideoRenderer
  | [] => []
  | s :: rest =>
    let l := s.items.filterMap LegacyItem.gridVideoRenderer
    if l.isEmpty then legacyScan rest else l

/-- The tab loop (lines 326-352) as a function of the remaining tabs: a tab
without `tabRenderer` is skipped; the modern grid is tried first (only when
its `contents` is non-empty), then the legacy section list; the first
non-empty filtered list breaks the loop; otherwise scanning continues and
an exhausted loop leaves the empty list. -/
def navScan : List ChannelTab → List VideoRenderer
  | [] => []
  | t :: rest =>
    match t.tabRenderer with
    | none => navScan rest
    | some tr =>
      let fromGrid :=
        match tr.richGridContents with
        | some items =>
          if items.isEmpty then [] else items.filterMap GridItem.videoRenderer
        | none => []
      if fromGrid.isEmpty then
        match tr.sectionList with
        | some sections =>
          let fromLegacy := legacyScan sections
          if fromLegacy.isEmpty then navScan rest else fromLegacy
        | none => navScan rest
      else fromGrid

/-- The message of the `No videos found` error (lines 354-358). -/
def noVideosMsg : String :=
  "No videos found. Make sure the URL points to a public YouTube channel (e.g. https://www.youtube.com/@channelname)."

/-- The navigator: the tab scan followed by the single terminal emptiness
check `if (!videoRenderers.length) throw ...`. -/
def navigate (tabs : List ChannelTab) : Except String (List VideoRenderer) :=
  let vs := navScan tabs
  if vs.isEmpty then .error noVideosMsg else .ok vs

/-- Modelled from the spec: the modern grid probe — `some` of the filtered
entry list when the grid container is present and yields entries. -/
def gridProbe (tr : TabRenderer) : Option (List VideoRenderer) :=
  match tr.richGridContents with
  | none => none
  | some items =>
    let l := items.filterMap GridItem.videoRenderer
    if l.isEmpty then none else some l

/-- Modelled from the spec: the legacy probe — the first section whose
filtered item list is non-empty. -/
def legacyProbeAux : List LegacySection → Option (List VideoRenderer)
  | [] => none
  | s :: rest =>
    let l := s.items.filterMap LegacyItem.gridVideoRenderer
    if l.isEmpty then legacyProbeAux rest else some l

/-- Modelled from the spec: probe one tab — grid first, legacy second. -/
def tabProbe (t : ChannelTab) : Option (List VideoRenderer) :=
  t.tabRenderer.bind fun tr =>
    (gridProbe tr).orElse fun _ => (tr.sectionList.bind legacyProbeAux)

/-- Modelled from the spec: the first tab whose probe yields entries. -/
def firstProbe : List ChannelTab → Option (List VideoRenderer)
  | [] => none
  | t :: rest => (tabProbe t).orElse fun _ => firstProbe rest

/-- Modelled from the spec (§4.3): ordered capability probing — stop at the
first tab/container yielding a non-empty list, else the single
`NoVideosFoundError`. -/
def navigateSpec (tabs : List ChannelTab) : Except String (List VideoRenderer) :=
  match firstProbe tabs with
  | some l => .ok l
  | none => .error noVideosMsg

/-- Every tab/container combination of the blob yields no entries. -/
def allCombinationsEmpty (tabs : List ChannelTab) : Prop :=
  ∀ t ∈ tabs, ∀ tr, t.tabRenderer = some tr →
    (∀ items, tr.richGridContents = some items →
      items.filterMap GridItem.videoRenderer = []) ∧
    (∀ sections, tr.sectionList = some sections →
      ∀ s ∈ sections, s.items.filterMap LegacyItem.gridVideoRenderer = [])

/-! ### C2 — the SSE event stream of one ingestion run
(`src/server/index.js:274-479`) -/

/-- One SSE frame of the `/api/youtube/channel` endpoint: the
`IngestionProgressEvent` union. `done` carries the ids of the records
pushed to `videos` (the enrichment payload is irrelevant to the stream
claims). -/
inductive IngestEvent where
  | progress (current total percent : Nat)
  | done (ids : List String)
  | error (msg : String)
deriving DecidableEq, Repr

/-- `Math.round(((i + 1) / limit) * 100)` over the exact rationals:
round-half-up of `100 * c / t`. -/
def roundPct (c t : Nat) : Nat := (200 * c + t) / (2 * t)

/-- Whether an event is terminal (`done` or `error`). -/
def IngestEvent.isTerminal : IngestEvent → Bool
  | .progress _ _ _ => false
  | _ => true

/-- The `current` values of the progress events, in stream order. -/
def progressCurrents (events : List IngestEvent) : List Nat :=
  events.filterMap fun e =>
    match e with
    | .progress c _ _ => some c
    | _ => none

/-- The per-item loop (lines 363-471) restricted to its event emissions:
slot `i` emits `progress(i+1, limit, percent)` unless the renderer lacks a
`videoId`, in which case `continue` skips the slot without emitting. -/
def loopProgress (rs : List VideoRenderer) (limit : Nat) : List IngestEvent :=
  (List.range limit).filterMap fun i =>
    ((rs.get? i).bind VideoRenderer.videoId).map fun _ =>
      .progress (i + 1) limit (roundPct (i + 1) limit)

/-- The ids of the records the loop pushes to `videos` (skipped slots push
nothing). -/
def loopIds (rs : List VideoRenderer) (limit : Nat) : List String :=
  (List.range limit).filterMap fun i => (rs.get? i).bind VideoRenderer.videoId

/-- The full event stream of one run.  `stage` is the outcome of the
fetch → extract → navigate prefix of the `try` block: a thrown error there
reaches the `catch` before any `send`, producing the single `error` frame;
otherwise the renderer list enters the bounded loop and the run ends with
the single `done` frame.  Per-item enrichment failures are swallowed inside
the loop and never terminate the stream. -/
def channelEvents (stage : Except String (List VideoRenderer))
    (mv : MaxVideosInput) : List IngestEvent :=
  match stage with
  | .error m => [.error m]
  | .ok rs =>
    let limit := (ingestLimit rs.length mv).toNat
    loopProgress rs limit ++ [.done (loopIds rs limit)]

/-! ### C6 — extracting the embedded `ytInitialData` JSON
(`src/server/index.js:302-318`)

The two regular expressions
`/var ytInitialData\s*=\s*(\{.+?\});\s*<\/script>/s` and
`/ytInitialData\s*=\s*(\{.+?\});\s*(?:var |<\/script>)/s`
are embedded by their matching semantics: leftmost start position wins, the
lazy `.+?` takes the shortest middle that lets the tail match, and `\s*`
before a non-whitespace literal is deterministic. `JSON.parse` is a
platform primitive and enters as the `parse` parameter. -/

/-- Strip an exact literal from the front of the text. -/
def stripLit : List Char → List Char → Option (List Char)
  | [], cs => some cs
  | _ :: _, [] => none
  | p :: ps, c :: cs => if c == p then stripLit ps cs else none

/-- Does a literal occur as a contiguous substring? -/
def containsSub (needle : List Char) : List Char → Bool
  | [] => needle.isEmpty
  | l@(_ :: rest) => needle.isPrefixOf l || containsSub needle rest

/-- The tail `;\s*<\/script>` required after the captured group by the
first pattern. -/
def tailChk1 (cs : List Char) : Bool :=
  match cs with
  | ';' :: rest => ("</script>".data).isPrefixOf (rest.dropWhile jsWs)
  | _ => false

/-- The tail `;\s*(?:var |<\/script>)` required after the captured group by
the second pattern (alternatives tried on the same position). -/
def tailChk2 (cs : List Char) : Bool :=
  match cs with
  | ';' :: rest =>
    let r := rest.dropWhile jsWs
    ("var ".data).isPrefixOf r || ("</script>".data).isPrefixOf r
  | _ => false

/-- The lazy `.+?` of `(\{.+?\})`: starting after the opening brace, grow
the middle one character at a time and stop at the first closing brace
(with a non-empty middle) whose tail satisfies the pattern's suffix.
`acc` holds the middle read so far, reversed. -/
def lazyCap (tailChk : List Char → Bool) : List Char → List Char → Option (List Char)
  | _, [] => none
  | acc, c :: rest =>
    if c == '\x7d' && !acc.isEmpty && tailChk rest then some acc.reverse
    else lazyCap tailChk (c :: acc) rest

/-- Attempt one pattern at the current position: the variable literal, then
`\s*=\s*`, then the lazily captured `\{.+?\}` whose tail satisfies
`tailChk`. Returns the captured group (braces included). -/
def matchAt (varLit : List Char) (tailChk : List Char → Bool) (cs : List Char) :
    Option (List Char) :=
  (stripLit varLit cs).bind fun r1 =>
    match r1.dropWhile jsWs with
    | '=' :: r3 =>
      match r3.dropWhile jsWs with
      | '\x7b' :: body =>
        (lazyCap tailChk [] body).map fun mid => '\x7b' :: (mid ++ ['\x7d'])
      | _ => none
    | _ => none

/-- Leftmost match: try the pattern at every start position, first success
wins (the semantics of `String.prototype.match` without the `g` flag). -/
def scanFor (varLit : List Char) (tailChk : List Char → Bool) :
    List Char → Option (List Char)
  | [] => none
  | l@(_ :: rest) => (matchAt varLit tailChk l).orElse fun _ => scanFor varLit tailChk rest

/-- The first pattern's captured group, if it matches anywhere. -/
def ytCapture1 (html : List Char) : Option (List Char) :=
  scanFor ("var ytInitialData".data) tailChk1 html

/-- The second pattern's captured group, if it matches anywhere. -/
def ytCapture2 (html : List Char) : Option (List Char) :=
  scanFor ("ytInitialData".data) tailChk2 html

/-- `html.match(re1) || html.match(re2)` (lines 304-306): the first
pattern's match wins outright; the second is tried only when the first
matches nowhere. -/
def ytFirstCapture (html : List Char) : Option (List Char) :=
  (ytCapture1 html).orElse fun _ => ytCapture2 html

/-- The extraction-failure message (lines 309-311). -/
def couldNotExtractMsg : String :=
  "Could not extract ytInitialData. The channel may not exist or YouTube blocked the request."

/-- The JSON-parse-failure message (line 317). -/
def parseFailMsg : String :=
  "Failed to parse ytInitialData JSON."

/-- The extractor (lines 302-318): no capture throws the extraction error;
a capture that `JSON.parse` (the `parse` parameter) rejects throws the
distinct parse error; otherwise the parsed blob is returned. There is no
other attempt at the page. -/
def extractYtData {α : Type} (parse : List Char → Option α) (html : List Char) :
    Except String α :=
  match ytFirstCapture html with
  | none => .error couldNotExtractMsg
  | some cap =>
    match parse cap with
    | some j => .ok j
    | none => .error parseFailMsg

/-! ### C8 — the best-effort transcript step (`src/server/index.js:427-465`) -/

/-- One caption segment of the json3 subtitle file (`s.utf8`). -/
structure CaptionSeg where
  utf8 : Option String
deriving Repr

/-- One caption event (`e.segs || []`). -/
structure CaptionEvent where
  segs : Option (List CaptionSeg)
deriving Repr

/-- The parsed subtitle file (`json.events || []`). -/
structure SubtitleJson where
  events : Option (List CaptionEvent)
deriving Repr

/-- `replace(/\s+/g, ' ')`: each maximal whitespace run becomes one space.
`prevWs` records whether the previous input character was whitespace. -/
def collapseAux : Bool → List Char → List Char
  | _, [] => []
  | prevWs, c :: rest =>
    if jsWs c then
      if prevWs then collapseAux true rest
      else ' ' :: collapseAux true rest
    else c :: collapseAux false rest

/-- `replace(/\s+/g, ' ')` from the initial (no previous whitespace) state. -/
def collapseWs (l : List Char) : List Char := collapseAux false l

/-- `String.prototype.trim()` over the modelled whitespace class. -/
def jsTrim (l : List Char) : List Char :=
  ((l.dropWhile jsWs).reverse.dropWhile jsWs).reverse

/-- The caption-processing chain (lines 452-459): flatten all segment
texts in event order, drop falsy ones (`filter(Boolean)`), join with
spaces, replace newlines, collapse whitespace, trim, and truncate to 5000
characters. -/
def transcriptText (j : SubtitleJson) : String :=
  let raw := (j.events.getD []).flatMap fun e => (e.segs.getD []).map CaptionSeg.utf8
  let kept := raw.filterMap fun o => o.bind fun s => if s = "" then none else some s
  let joined := String.intercalate " " kept
  let noNl := joined.data.map fun c => if c == '\n' then ' ' else c
  ⟨(jsTrim (collapseWs noNl)).take 5000⟩

/-- An `execFile` invocation as the code issues it: command, argument
vector and the `timeout` option. -/
structure ExecFileCall where
  cmd : String
  args : List String
  timeoutMs : Nat
deriving Repr

/-- `path.join(os.tmpdir(), `yt_sub_${videoId}`)` with the temp directory
modelled as `/tmp`. -/
def tmpBase (videoId : String) : String := "/tmp/yt_sub_" ++ videoId

/-- The expected subtitle output file `${tmpBase}.en.json3` (line 449). -/
def subFile (videoId : String) : String := tmpBase videoId ++ ".en.json3"

/-- The canonical watch URL used throughout the endpoint. -/
def videoUrl (videoId : String) : String :=
  "https://www.youtube.com/watch?v=" ++ videoId

/-- The `yt-dlp` invocation (lines 435-447): fixed flags requesting
auto-generated English captions in json3 format, and the 20-second timeout. -/
def ytDlpInvocation (videoId : String) : ExecFileCall :=
  { cmd := "yt-dlp"
    args := ["--skip-download", "--write-auto-sub", "--sub-lang", "en",
             "--sub-format", "json3", "-o", tmpBase videoId, videoUrl videoId]
    timeoutMs := 20000 }

/-- The file-handling tail of the transcript step (lines 449-465), as a
function of what is on disk after the command: `none` when the expected
file does not exist (the `existsSync` guard fails; nothing read, nothing
deleted), `some none` when it exists but `JSON.parse` of its content
throws (the `catch` swallows the error before `unlinkSync` runs, so the
file survives), `some (some j)` when it parses. Returns the transcript
and whether `unlinkSync` deleted the temporary file. -/
def transcriptStep (file : Option (Option SubtitleJson)) : String × Bool :=
  match file with
  | none => ("", false)
  | some none => ("", false)
  | some (some j) => (transcriptText j, true)

/-! ### C4 and C5 — the tool-orchestration loop (`chatWithTools`,
`src/unnamed/part_000:142-221`) and the result sanitizer (lines 196-217)

The Gemini chat is modelled as a pure stream `responses : Nat → GResponse`:
`responses 0` answers the initial `sendMessage`, `responses (k+1)` answers
the `k`-th `functionResponse` message.  The async tool callback becomes a
pure `execF`; its serialized argument mapping is kept opaque as a string. -/

/-- A function-call part of a model response (`part.functionCall`). -/
structure FnCall where
  name : String
  args : String
deriving DecidableEq, Repr

/-- One part of a model response: an optional function call and optional
text. -/
structure GPart where
  functionCall : Option FnCall
  text : Option String
deriving Repr

/-- One model response (`response.candidates[0].content.parts` collapsed to
the part list). -/
structure GResponse where
  parts : List GPart
deriving Repr

/-- `response.text()`: the concatenated text parts. -/
def responseText (r : GResponse) : String :=
  String.join (r.parts.filterMap GPart.text)

/-- `parts.find((p) => p.functionCall)` (line 185). -/
def findFunctionCall (parts : List GPart) : Option FnCall :=
  (parts.find? fun p => p.functionCall.isSome).bind GPart.functionCall

/-- One point of a chart result's `data` array. -/
structure ChartPoint where
  x : Int
  y : Int
  label : String
deriving Repr

/-- A raw tool result object: the three marker fields and the payload
fields the sanitizer reads.  A `null`/`undefined` result is `Option
RawResult`'s `none` at the use sites. -/
structure RawResult where
  imageType : Option String
  chartType : Option String
  videoType : Option String
  prompt : Option String
  mimeType : Option String
  title : Option String
  url : Option String
  data : Option (List ChartPoint)
deriving Repr

/-- JS truthiness of an optional string field (absent and `""` are falsy). -/
def jsTruthyStr (o : Option String) : Bool :=
  match o with
  | some s => s != ""
  | none => false

/-- The sanitized payload sent back to the model in place of a raw tool
result: the three object literals of lines 205-211, or the raw result
passed through. -/
inductive Sanitized where
  | imagePayload (prompt mimeType : Option String)
  | chartPayload (chartType : Option String) (dataPoints : Option Nat)
  | videoPayload (title url : Option String)
  | passthrough (raw : Option RawResult)
deriving Repr

/-- `resultForGemini` (lines 205-211): `_imageType` first, then
`_chartType` (with `dataPoints: toolResult.data?.length`), then
`_videoType`, else the raw result unchanged. -/
def resultForGemini (tr : Option RawResult) : Sanitized :=
  match tr with
  | none => .passthrough none
  | some t =>
    if jsTruthyStr t.imageType then .imagePayload t.prompt t.mimeType
    else if jsTruthyStr t.chartType then .chartPayload t.chartType (t.data.map List.length)
    else if jsTruthyStr t.videoType then .videoPayload t.title t.url
    else .passthrough (some t)

/-- `toolCalls.push({ name, args, result })` (line 194). -/
structure ToolCallRecord where
  name : String
  args : String
  result : Option RawResult
deriving Repr

/-- What `chatWithTools` returns (line 220), plus the sanitized payloads it
sent back to the model, in order. -/
structure ChatOutcome where
  text : String
  charts : List (Option RawResult)
  toolCalls : List ToolCallRecord
  videoCards : List (Option RawResult)
  sent : List Sanitized
deriving Repr

/-- `toolResult?._chartType || toolResult?._imageType` (line 196). -/
def chartOrImageMarker (tr : Option RawResult) : Bool :=
  match tr with
  | none => false
  | some t => jsTruthyStr t.chartType || jsTruthyStr t.imageType

/-- `toolResult?._videoType` (line 199). -/
def videoMarker (tr : Option RawResult) : Bool :=
  match tr with
  | none => false
  | some t => jsTruthyStr t.videoType

/-- The `for (let round = 0; round < 8; round++)` loop (lines 183-218),
with `fuel` the remaining rounds and `k` the index of the current response
in the stream. A response without a function-call part breaks the loop;
otherwise the callback runs, the accumulators grow, the sanitized payload
is sent, and the next response is awaited. -/
def chatLoopAux (responses : Nat → GResponse) (execF : String → String → Option RawResult) :
    Nat → Nat → GResponse → List (Option RawResult) → List ToolCallRecord →
    List (Option RawResult) → List Sanitized → ChatOutcome
  | 0, _, resp, ch, tc, vc, sent => ⟨responseText resp, ch, tc, vc, sent⟩
  | fuel + 1, k, resp, ch, tc, vc, sent =>
    match findFunctionCall resp.parts with
    | none => ⟨responseText resp, ch, tc, vc, sent⟩
    | some fc =>
      let tr := execF fc.name fc.args
      let tc2 := tc ++ [⟨fc.name, fc.args, tr⟩]
      let ch2 := if chartOrImageMarker tr then ch ++ [tr] else ch
      let vc2 := if videoMarker tr then vc ++ [tr] else vc
      chatLoopAux responses execF fuel (k + 1) (responses (k + 1)) ch2 tc2 vc2
        (sent ++ [resultForGemini tr])

/-- `chatWithTools` after the initial `sendMessage`: at most 8 rounds
starting from `responses 0` with empty accumulators, returning the final
`response.text()` and the accumulated artifacts. -/
def chatWithTools (responses : Nat → GResponse)
    (execF : String → String → Option RawResult) : ChatOutcome :=
  chatLoopAux responses execF 8 0 (responses 0) [] [] [] []

/-- The `ToolCallRecord` the loop would append for the response at stream
index `j`, if that response requests a function call. -/
def callRecordAt (responses : Nat → GResponse)
    (execF : String → String → Option RawResult) (j : Nat) : Option ToolCallRecord :=
  (findFunctionCall (responses j).parts).map fun fc =>
    ⟨fc.name, fc.args, execF fc.name fc.args⟩

/-! ### C9 and C10 — the client-side JSON tool executor
(`src/src/services/jsonTools.js`)

The loaded data is a list of video records with the ingestion pipeline's
schema; dynamic property access `item[field]` becomes `getField`, which
returns an untyped JS primitive. `new Date(x).getTime()` is a platform
primitive and enters as the `dateNum` parameter. Statistics use `Float`
(JS numbers); their exact values play no part in the claims below. -/

/-- An untyped JS primitive as dynamic field access yields it. -/
inductive JsonPrim where
  | undefined
  | null
  | num (x : Float)
  | str (s : String)
deriving Repr

/-- One record of the loaded channel JSON (the `EnrichedVideoRecord`
fields the tools read). -/
structure VideoItem where
  video_id : String
  title : Option String
  thumbnail : Option String
  video_url : Option String
  duration : Option String
  release_date : Option String
  view_count : Option Int
  like_count : Option Int
  comment_count : Option Int
deriving Repr

/-- The keys of a record, as `Object.keys(data[0])` lists them in the
no-numeric-values error message. -/
def videoItemKeys : List String :=
  ["video_id", "title", "thumbnail", "video_url", "duration", "release_date",
   "view_count", "like_count", "comment_count"]

/-- Dynamic access `item[name]`: known keys give their value (a missing
optional becomes `undefined` for strings and `null` for the numeric fields,
which the ingestion writes as explicit `null`); unknown keys give
`undefined`. -/
def getField (v : VideoItem) (name : String) : JsonPrim :=
  if name = "video_id" then .str v.video_id
  else if name = "title" then match v.title with | some s => .str s | none => .undefined
  else if name = "thumbnail" then match v.thumbnail with | some s => .str s | none => .undefined
  else if name = "video_url" then match v.video_url with | some s => .str s | none => .undefined
  else if name = "duration" then match v.duration with | some s => .str s | none => .undefined
  else if name = "release_date" then match v.release_date with | some s => .str s | none => .undefined
  else if name = "view_count" then match v.view_count with | some n => .num (Float.ofInt n) | none => .null
  else if name = "like_count" then match v.like_count with | some n => .num (Float.ofInt n) | none => .null
  else if name = "comment_count" then match v.comment_count with | some n => .num (Float.ofInt n) | none => .null
  else .undefined

/-- `item[field]` where the field name itself may be `undefined` (an absent
`args` property used as a key accesses nothing). -/
def getFieldOpt (v : VideoItem) (name : Option String) : JsonPrim :=
  match name with
  | some f => getField v f
  | none => .undefined

/-- Decimal digit run: accumulated value, number of digits seen, rest. -/
def takeDigits : Nat → Nat → List Char → Nat × Nat × List Char
  | acc, cnt, [] => (acc, cnt, [])
  | acc, cnt, l@(c :: cs) =>
    if c.isDigit then takeDigits (acc * 10 + (c.toNat - '0'.toNat)) (cnt + 1) cs
    else (acc, cnt, l)

/-- An unsigned decimal float `digits[.digits]` (at least one digit on
either side), returning the value and the unconsumed rest; scientific
notation is not modelled (the channel JSON never renders numbers with
exponents). -/
def parseUnsignedFloat (cs : List Char) : Option (Float × List Char) :=
  let (ip, ic, r1) := takeDigits 0 0 cs
  match r1 with
  | '.' :: r2 =>
    let (fp, fc, r3) := takeDigits 0 0 r2
    if ic + fc = 0 then none
    else some ((Float.ofNat (ip * 10 ^ fc + fp)) / Float.ofNat (10 ^ fc), r3)
  | _ => if ic = 0 then none else some (Float.ofNat ip, r1)

/-- JS `parseFloat` on a string: leading whitespace and sign, then the
longest numeric prefix; `none` models `NaN`. -/
def parseFloatStr (s : String) : Option Float :=
  let cs := s.data.dropWhile jsWs
  match cs with
  | '-' :: r => (parseUnsignedFloat r).map fun p => -p.1
  | '+' :: r => (parseUnsignedFloat r).map fun p => p.1
  | r => (parseUnsignedFloat r).map fun p => p.1

/-- JS `parseFloat` on a dynamic field value (`undefined` and `null`
stringify to non-numeric text, hence `NaN`). -/
def jsParseFloat : JsonPrim → Option Float
  | .num x => if x.isNaN then none else some x
  | .str s => parseFloatStr s
  | _ => none

/-- The JS `NaN` value. -/
def floatNaN : Float := 0.0 / 0.0

/-- JS `Number(x)` on a string: trimmed-empty is `0`, otherwise the whole
string must be one signed decimal number. -/
def numberStr (s : String) : Float :=
  let cs := (s.data.dropWhile jsWs).reverse.dropWhile jsWs |>.reverse
  match cs with
  | [] => 0
  | '-' :: r =>
    match parseUnsignedFloat r with
    | some (x, []) => -x
    | _ => floatNaN
  | '+' :: r =>
    match parseUnsignedFloat r with
    | some (x, []) => x
    | _ => floatNaN
  | r =>
    match parseUnsignedFloat r with
    | some (x, []) => x
    | _ => floatNaN

/-- JS `Number(x)` on a dynamic field value. -/
def jsNumber : JsonPrim → Float
  | .undefined => floatNaN
  | .null => 0
  | .num x => x
  | .str s => numberStr s

/-- `numericValues(data, field)` (lines 145-151): `parseFloat` each
record's field, drop the `NaN`s. -/
def numericValues (data : List VideoItem) (field : Option String) : List Float :=
  data.filterMap fun item => jsParseFloat (getFieldOpt item field)

/-- `median(sorted)` (lines 153-156); out-of-range indexing (never reached
on the non-empty lists the caller passes) defaults to `0`. -/
def median (sorted : List Float) : Float :=
  if sorted.length % 2 = 0 then
    (sorted.getD (sorted.length / 2 - 1) 0 + sorted.getD (sorted.length / 2) 0) / 2
  else sorted.getD (sorted.length / 2) 0

/-- `fmt = (n) => +n.toFixed(4)` modelled as rounding to 4 decimals. -/
def fmt (n : Float) : Float := (n * 10000).round / 10000

/-- `Math.min(...vals)`: fold from `+Infinity`. -/
def jsMinL (l : List Float) : Float :=
  l.foldl (fun a b => if b < a then b else a) (1.0 / 0.0)

/-- `Math.max(...vals)`: fold from `-Infinity`. -/
def jsMaxL (l : List Float) : Float :=
  l.foldl (fun a b => if a < b then b else a) (-(1.0 / 0.0))

/-- `v || ''` for the optional string fields. -/
def jsOrEmpty (o : Option String) : String := o.getD ""

/-- `String.prototype.toLowerCase()` (character-wise, as the ASCII
criteria and title strings need). -/
def jsToLower (s : String) : String := ⟨s.data.map Char.toLower⟩

/-- `v[name] != null` (both `null` and `undefined` fail the test). -/
def fieldNonNull (v : VideoItem) (name : Option String) : Bool :=
  match getFieldOpt v name with
  | .undefined => false
  | .null => false
  | _ => true

/-- The arguments object handed to `executeJsonTool`; every property is
optional. -/
structure JsonToolArgs where
  field : Option String := none
  metric : Option String := none
  chart_type : Option String := none
  y_metric : Option String := none
  limit : Option Nat := none
  query : Option String := none
  ordinal : Option Int := none
  criteria : Option String := none
deriving Repr

/-- One datum of a chart result's `data` array, per chart shape. -/
inductive ChartDatum where
  | scatterPt (x y : Float) (label : String)
  | histoBin (bin : String) (count : Nat) (lo hi : Float)
  | rankBar (label : String) (value : Float) (fullTitle : String)
  | timePt (date : Option String) (value : Float) (title : String)
deriving Repr

/-- What `executeJsonTool` returns: an `{error}` object, a statistics
object, a chart object tagged `_chartType`, or a video card tagged
`_videoType`. -/
inductive JsonToolResult where
  | error (msg : String)
  | stats (field : Option String) (count : Nat) (mean median std mn mx : Float)
  | chart (chartType : String) (data : List ChartDatum) (metric : Option String)
      (yMetric : Option String)
  | videoCard (videoType : String) (videoId : String)
      (title thumbnail url duration : String) (view_count like_count : Option Int)
deriving Repr

/-- Whether a result is the `{error}` shape. -/
def JsonToolResult.isErr : JsonToolResult → Bool
  | .error _ => true
  | _ => false

/-- The field name as string interpolation renders it inside error
messages (`undefined` for an absent property). -/
def fieldStr (o : Option String) : String := o.getD "undefined"

/-- `fmtBinLabel` (lines 134-141); `toFixed` rendering is modelled with
`toString`, which only affects label text. -/
def fmtBinShort (v : Float) : String :=
  if v ≥ 1000000 then toString (v / 1000000) ++ "M"
  else if v ≥ 1000 then toString (v / 1000) ++ "K"
  else toString v.round

/-- The `lo–hi` bin label. -/
def fmtBinLabel (lo hi : Float) : String := fmtBinShort lo ++ "–" ++ fmtBinShort hi

/-- `Math.ceil(Math.sqrt(n))` for a list length. -/
def ceilSqrt (n : Nat) : Nat :=
  let r := Nat.sqrt n
  if r * r = n then r else r + 1

/-- `limit ? e1 : e2` — the `limit` argument is truthy when present and
non-zero. -/
def limitTruthy (limit : Option Nat) : Bool :=
  match limit with
  | some n => n != 0
  | none => false

/-- `limit || 15`. -/
def limitOr15 (limit : Option Nat) : Nat :=
  match limit with
  | some n => if n = 0 then 15 else n
  | none => 15

/-- `(v.title || '').slice(0, 38) + ((v.title || '').length > 38 ? '…' : '')`. -/
def truncLabel (t : String) : String :=
  (⟨t.data.take 38⟩ : String) ++ (if t.data.length > 38 then "…" else "")

/-- The `compute_stats_json` branch (lines 166-185). -/
def computeStats (args : JsonToolArgs) (items : List VideoItem) : JsonToolResult :=
  let vals := numericValues items args.field
  if vals.isEmpty then
    .error ("No numeric values found for field \"" ++ fieldStr args.field ++
      "\". Available fields: " ++ String.intercalate ", " videoItemKeys)
  else
    let n := vals.length
    let mean := vals.foldl (· + ·) 0 / Float.ofNat n
    let sorted := vals.mergeSort fun a b => decide (a ≤ b)
    let variance := vals.foldl (fun a b => a + (b - mean) * (b - mean)) 0 / Float.ofNat n
    .stats args.field n (fmt mean) (fmt (median sorted)) (fmt (Float.sqrt variance))
      (jsMinL vals) (jsMaxL vals)

/-- The `plot_metric_vs_time` branch (lines 187-277). -/
def plotMetric (dateNum : Option String → Float) (args : JsonToolArgs)
    (items : List VideoItem) : JsonToolResult :=
  let chartType := match args.chart_type with
    | some s => if s = "" then "timeseries_bar" else s
    | none => "timeseries_bar"
  if chartType = "scatter" then
    let yField : Option String :=
      match args.y_metric with
      | some s =>
        if s = "" then some (if args.metric = some "view_count" then "like_count" else "view_count")
        else some s
      | none => some (if args.metric = some "view_count" then "like_count" else "view_count")
    let valid := items.filter fun v => fieldNonNull v args.metric && fieldNonNull v yField
    if valid.isEmpty then
      .error ("No videos with both \"" ++ fieldStr args.metric ++ "\" and \"" ++
        fieldStr yField ++ "\".")
    else
      let sliced := if limitTruthy args.limit then valid.take (args.limit.getD 0) else valid
      .chart "scatter"
        (sliced.map fun v => .scatterPt (jsNumber (getFieldOpt v args.metric))
          (jsNumber (getFieldOpt v yField)) (jsOrEmpty v.title))
        args.metric yField
  else if chartType = "histogram" then
    let vals := (items.map fun v => jsNumber (getFieldOpt v args.metric)).filter
      fun x => !x.isNaN
    if vals.isEmpty then
      .error ("No numeric values for \"" ++ fieldStr args.metric ++ "\".")
    else
      let mn := jsMinL vals
      let mx := jsMaxL vals
      let binCount := min 10 (max 5 (ceilSqrt vals.length))
      let bs0 := (mx - mn) / Float.ofNat binCount
      let binSize := if bs0 == 0 || bs0.isNaN then 1 else bs0
      let idxOf := fun (v : Float) =>
        min (((v - mn) / binSize).floor.toUInt64.toNat) (binCount - 1)
      .chart "histogram"
        ((List.range binCount).map fun i =>
          .histoBin (fmtBinLabel (mn + Float.ofNat i * binSize) (mn + Float.ofNat (i + 1) * binSize))
            (vals.countP fun v => idxOf v = i)
            (mn + Float.ofNat i * binSize) (mn + Float.ofNat (i + 1) * binSize))
        args.metric none
  else if chartType = "ranking" then
    let valid := items.filter fun v => fieldNonNull v args.metric
    if valid.isEmpty then
      .error ("No videos with \"" ++ fieldStr args.metric ++ "\" data.")
    else
      let sorted := valid.mergeSort fun a b =>
        decide (jsNumber (getFieldOpt b args.metric) ≤ jsNumber (getFieldOpt a args.metric))
      let sliced := sorted.take (limitOr15 args.limit)
      .chart "ranking"
        (sliced.map fun v => .rankBar (truncLabel (jsOrEmpty v.title))
          (jsNumber (getFieldOpt v args.metric)) (jsOrEmpty v.title))
        args.metric none
  else if chartType = "timeseries_line" then
    let valid := (items.filter fun v => fieldNonNull v args.metric && jsTruthyStr v.release_date).mergeSort
      fun a b => decide (dateNum a.release_date ≤ dateNum b.release_date)
    let sliced := if limitTruthy args.limit then valid.take (args.limit.getD 0) else valid
    if sliced.isEmpty then
      .error ("No videos with both \"" ++ fieldStr args.metric ++ "\" and \"release_date\".")
    else
      .chart "timeseries_line"
        (sliced.map fun v => .timePt v.release_date (jsNumber (getFieldOpt v args.metric))
          (jsOrEmpty v.title))
        args.metric none
  else
    let valid := (items.filter fun v => fieldNonNull v args.metric && jsTruthyStr v.release_date).mergeSort
      fun a b => decide (dateNum a.release_date ≤ dateNum b.release_date)
    let sliced := if limitTruthy args.limit then valid.take (args.limit.getD 0) else valid
    if sliced.isEmpty then
      .error ("No videos with both \"" ++ fieldStr args.metric ++
        "\" and \"release_date\". Try a different metric.")
    else
      .chart "timeseries"
        (sliced.map fun v => .timePt v.release_date (jsNumber (getFieldOpt v args.metric))
          (jsOrEmpty v.title))
        args.metric none

/-- `pre` then any optional single character then `suf`, at the head of the
text: the regex fragment `pre.?suf`. -/
def gapAt (pre suf l : List Char) : Bool :=
  pre.isPrefixOf l &&
    (let r := l.drop pre.length
     suf.isPrefixOf r ||
       (match r with
        | _ :: r2 => suf.isPrefixOf r2
        | [] => false))

/-- `pre.?suf` anywhere in the text. -/
def gapMatch (pre suf : List Char) : List Char → Bool
  | [] => gapAt pre suf []
  | l@(_ :: rest) => gapAt pre suf l || gapMatch pre suf rest

/-- `/most.?view|most.?play|most.?watch|most.?popular/i` on the lowercased
criteria. -/
def testMostViewed (c : String) : Bool :=
  gapMatch ("most".data) ("view".data) c.data || gapMatch ("most".data) ("play".data) c.data ||
    gapMatch ("most".data) ("watch".data) c.data || gapMatch ("most".data) ("popular".data) c.data

/-- `/most.?lik/i`. -/
def testMostLiked (c : String) : Bool := gapMatch ("most".data) ("lik".data) c.data

/-- `/most.?comment/i`. -/
def testMostCommented (c : String) : Bool := gapMatch ("most".data) ("comment".data) c.data

/-- `/least.?view|least.?play/i`. -/
def testLeastViewed (c : String) : Bool :=
  gapMatch ("least".data) ("view".data) c.data || gapMatch ("least".data) ("play".data) c.data

/-- `/least.?lik/i`. -/
def testLeastLiked (c : String) : Bool := gapMatch ("least".data) ("lik".data) c.data

/-- `/least.?comment/i`. -/
def testLeastCommented (c : String) : Bool := gapMatch ("least".data) ("comment".data) c.data

/-- `/latest|newest|recent/i`. -/
def testLatest (c : String) : Bool :=
  containsSub ("latest".data) c.data || containsSub ("newest".data) c.data ||
    containsSub ("recent".data) c.data

/-- `/oldest|earliest/i`. -/
def testOldest (c : String) : Bool :=
  containsSub ("oldest".data) c.data || containsSub ("earliest".data) c.data

/-- Whether the lowercased criteria string matches any of the recognized
patterns (the eight regex tests of lines 285-300). -/
def recognizedCriteria (c : String) : Bool :=
  testMostViewed c || testMostLiked c || testMostCommented c || testLeastViewed c ||
    testLeastLiked c || testLeastCommented c || testLatest c || testOldest c

/-- Stable descending sort by an integer key defaulting to 0:
`[...data].sort((a, b) => (b.key || 0) - (a.key || 0))`.  (`x || 0` and the
`null - 0 = NaN`-free arithmetic coincide with `getD 0` on these integer
fields.) -/
def sortByKeyDesc (key : VideoItem → Int) (items : List VideoItem) : List VideoItem :=
  items.mergeSort fun a b => decide (key b ≤ key a)

/-- Stable ascending sort by an integer key defaulting to 0. -/
def sortByKeyAsc (key : VideoItem → Int) (items : List VideoItem) : List VideoItem :=
  items.mergeSort fun a b => decide (key a ≤ key b)

/-- The video-card object (lines 315-324): `_videoType: 'youtube'`, the
video's id, its display fields defaulted to `''`, the URL defaulted to the
canonical watch URL, and `|| null` on the two counts (which turns a real
`0` into `null`). -/
def playCard (v : VideoItem) : JsonToolResult :=
  .videoCard "youtube" v.video_id (jsOrEmpty v.title) (jsOrEmpty v.thumbnail)
    (match v.video_url with
     | some u => if u = "" then videoUrl v.video_id else u
     | none => videoUrl v.video_id)
    (jsOrEmpty v.duration)
    (match v.view_count with
     | some n => if n = 0 then none else some n
     | none => none)
    (match v.like_count with
     | some n => if n = 0 then none else some n
     | none => none)

/-- The `let video` selection of the `play_video` branch (lines 281-311):
the criteria chain, the ordinal lookup with first-video fallback, the
title-substring search with first-video fallback, or the first video. -/
def playVideoSelect (dateNum : Option String → Float) (args : JsonToolArgs)
    (items : List VideoItem) : Option VideoItem :=
  if jsTruthyStr args.criteria then
    let c := jsToLower (args.criteria.getD "")
    if testMostViewed c then (sortByKeyDesc (fun v => v.view_count.getD 0) items).head?
    else if testMostLiked c then (sortByKeyDesc (fun v => v.like_count.getD 0) items).head?
    else if testMostCommented c then (sortByKeyDesc (fun v => v.comment_count.getD 0) items).head?
    else if testLeastViewed c then (sortByKeyAsc (fun v => v.view_count.getD 0) items).head?
    else if testLeastLiked c then (sortByKeyAsc (fun v => v.like_count.getD 0) items).head?
    else if testLeastCommented c then (sortByKeyAsc (fun v => v.comment_count.getD 0) items).head?
    else if testLatest c then
      (items.mergeSort fun a b => decide (dateNum b.release_date ≤ dateNum a.release_date)).head?
    else if testOldest c then
      (items.mergeSort fun a b => decide (dateNum a.release_date ≤ dateNum b.release_date)).head?
    else items.head?
  else if args.ordinal.isSome then
    (items.get? (max 0 (args.ordinal.getD 0 - 1)).toNat).orElse fun _ => items.head?
  else if jsTruthyStr args.query then
    (items.find? fun v =>
        containsSub ((jsToLower (args.query.getD "")).data) ((jsToLower (jsOrEmpty v.title)).data)).orElse
      fun _ => items.head?
  else items.head?

/-- The `play_video` branch (lines 279-325): the selection, then the
`!video` guard, then the card. -/
def playVideo (dateNum : Option String → Float) (args : JsonToolArgs)
    (items : List VideoItem) : JsonToolResult :=
  match playVideoSelect dateNum args items with
  | none => .error "No video found matching criteria."
  | some v => playCard v

/-- `executeJsonTool(toolName, args, data)` (lines 162-330): the
`!data?.length` guard, then the three tool branches, then the
unknown-tool default. -/
def executeJsonTool (dateNum : Option String → Float) (toolName : String)
    (args : JsonToolArgs) (data : Option (List VideoItem)) : JsonToolResult :=
  let items := data.getD []
  if items.isEmpty then .error "No JSON data loaded."
  else if toolName = "compute_stats_json" then computeStats args items
  else if toolName = "plot_metric_vs_time" then plotMetric dateNum args items
  else if toolName = "play_video" then playVideo dateNum args items
  else .error ("Unknown JSON tool: " ++ toolName)

/-! ## Theorems -/

/-- If a function is `some` on every element of a list, `filterMap` is the
corresponding `map`. -/
theorem filterMap_eq_map_of_forall_some {α β : Type} (F : α → Option β) (g : α → β) :
    ∀ l : List α, (∀ a ∈ l, F a = some (g a)) → l.filterMap F = l.map g := by
  intro l
  induction l with
  | nil => intro _; rfl
  | cons a l ih =>
    intro h
    rw [List.filterMap_cons, h a (List.mem_cons_self a l), List.map_cons,
      ih fun b hb => h b (List.mem_cons_of_mem a hb)]

/-- If a function is `some` on every element of a list, `filterMap` keeps
the length. -/
theorem length_filterMap_of_forall_isSome {α β : Type} (F : α → Option β) :
    ∀ l : List α, (∀ a ∈ l, (F a).isSome = true) → (l.filterMap F).length = l.length := by
  intro l
  induction l with
  | nil => intro _; rfl
  | cons a l ih =>
    intro h
    obtain ⟨b, hb⟩ := Option.isSome_iff_exists.mp (h a (List.mem_cons_self a l))
    rw [List.filterMap_cons, hb, List.length_cons,
      ih fun c hc => h c (List.mem_cons_of_mem a hc), List.length_cons]

/-- C1 counterexample: the claimed `clamp(·, 1, 100)` limit disagrees with
the code at `maxVideos = 150` against 200 available entries (the code has
no upper cap) and at `maxVideos = 0` (the code falls back to the default
10, while `clamp(0, 1, 100) = 1`). -/
theorem ingestLimit_clamp_counterexample :
    ingestLimit 200 (.num 150) = 150 ∧ claimedLimit 200 (.num 150) = 100 ∧
      ingestLimit 200 (.num 0) = 10 ∧ claimedLimit 200 (.num 0) = 1 ∧
      ¬ ingestLimit 200 (.num 150) = claimedLimit 200 (.num 150) ∧
      ¬ ingestLimit 200 (.num 0) = claimedLimit 200 (.num 0) := by
  decide

/-- C1 (amended): the effective limit is
`min(available entries, max(1, requested))`, where the requested value
falls back to 10 when `maxVideos` is absent, non-numeric, or zero; there
is no upper cap of 100 in the orchestrator (that clamp lives only in the
client input field). The limit is positive and bounded by the available
entries whenever any entry is available. -/
theorem ingestLimit_amended (available : Nat) (mv : MaxVideosInput) :
    ingestLimit available mv = min (available : Int) (max 1 (requestedOrTen mv)) ∧
      (0 < available →
        1 ≤ ingestLimit available mv ∧ ingestLimit available mv ≤ (available : Int)) := by
  constructor
  · cases mv <;> rfl
  · intro h
    have h1 : (1 : Int) ≤ (available : Int) := by exact_mod_cast h
    unfold ingestLimit
    constructor
    · exact le_min h1 (le_max_left 1 _)
    · exact min_le_left _ _

/-- C1 witness: the amended limit at 5 available entries and
`maxVideos = 3`. -/
theorem ingestLimit_amended_witness :
    ingestLimit 5 (.num 3) = min (5 : Int) (max 1 (requestedOrTen (.num 3))) ∧
      1 ≤ ingestLimit 5 (.num 3) ∧ ingestLimit 5 (.num 3) ≤ (5 : Int) :=
  ⟨(ingestLimit_amended 5 (.num 3)).1, (ingestLimit_amended 5 (.num 3)).2 (by decide)⟩

/-- The engagement-panel scan never produces `NaN`: a panel whose count
text fails `parseInt` is skipped rather than stored. -/
theorem panelScan_ne_nan : ∀ panels : List EngagementPanel, panelScan panels ≠ .nan := by
  intro panels
  induction panels with
  | nil => simp [panelScan]
  | cons p rest ih =>
    unfold panelScan
    match p.countText with
    | none => exact ih
    | some t =>
      by_cases ht : t = ""
      · simpa [ht] using ih
      · simp only [ht, if_false]
        match jsParseInt (stripCommas t) with
        | some n => simp
        | none => exact ih

/-- C3 counterexample: the direct `commentCount` path applies `parseInt`
with no `isNaN` guard and no separator stripping, so an unparseable value
yields `NaN` (not `null`) and the formatted string `"1,234"` yields `1`
(not `1234`). -/
theorem commentCount_direct_counterexample :
    commentCountField (some "abc") [] = .nan ∧
      commentCountField (some "1,234") [] = .int 1 := by
  decide

/-- C3 (amended): absent source values yield `null` for all three numeric
fields and the engagement-panel path is `NaN`-guarded and strips thousands
separators (`"1,234"` parses to `1234` there); but the direct paths are
raw `parseInt` results, so a present-but-unparseable `viewCount`,
`likes`, or direct `commentCount` yields `NaN`, and the direct
`commentCount` path does not strip separators (`"1,234"` parses to `1`). -/
theorem enrichmentNumerics_amended :
    (viewCountField none = .null ∧ likeCountField none = .null ∧
        commentCountField none [] = .null) ∧
      (∀ panels, commentCountField none panels ≠ .nan) ∧
      (∀ rest, commentCountField none (⟨some "1,234"⟩ :: rest) = .int 1234) ∧
      viewCountField (some "") = .null ∧
      (∀ s n, s ≠ "" → jsParseInt s = some n → viewCountField (some s) = .int n) ∧
      (∀ s, s ≠ "" → jsParseInt s = none → viewCountField (some s) = .nan) ∧
      (∀ s n, jsParseInt s = some n → likeCountField (some s) = .int n) ∧
      (∀ s, jsParseInt s = none → likeCountField (some s) = .nan) ∧
      (∀ s panels, jsParseInt s = none → commentCountField (some s) panels = .nan) ∧
      (∀ panels, commentCountField (some "1,234") panels = .int 1) := by
  refine ⟨by decide, ?_, ?_, by decide, ?_, ?_, ?_, ?_, ?_, ?_⟩
  · intro panels
    exact panelScan_ne_nan panels
  · intro rest
    have h : jsParseInt (stripCommas "1,234") = some 1234 := by decide
    simp [commentCountField, panelScan, h]
  · intro s n hs hp
    simp [viewCountField, hs, hp]
  · intro s hs hp
    simp [viewCountField, hs, hp]
  · intro s n hp
    simp [likeCountField, hp]
  · intro s hp
    simp [likeCountField, hp]
  · intro s panels hp
    simp [commentCountField, hp]
  · intro panels
    have h : jsParseInt "1,234" = some 1 := by decide
    simp [commentCountField, h]

/-- C3 witness: the amended statement applied at a panel-path count of
`"1,234"` and a direct-path miss `"abc"`. -/
theorem enrichmentNumerics_amended_witness :
    commentCountField none [⟨some "1,234"⟩] = .int 1234 ∧
      viewCountField (some "abc") = .nan :=
  ⟨(enrichmentNumerics_amended).2.2.1 [],
    (enrichmentNumerics_amended).2.2.2.2.2.1 "abc" (by decide) (by decide)⟩

/-- C5: the sanitizer is determined solely by the marker fields, in the
code's precedence order `_imageType`, `_chartType`, `_videoType` (the spec
requires tools to set exactly one marker): an image result keeps only
`prompt` and `mimeType` (the binary payload is dropped — the payload type
has no data field); a chart result keeps the chart type and
`dataPoints = data.length` (never the raw array); a video result keeps
`title` and `url`; a result with no marker passes through unchanged. -/
theorem resultForGemini_classifier (t : RawResult) :
    (jsTruthyStr t.imageType = true →
        resultForGemini (some t) = .imagePayload t.prompt t.mimeType) ∧
      (jsTruthyStr t.imageType = false → jsTruthyStr t.chartType = true →
        resultForGemini (some t) = .chartPayload t.chartType (t.data.map List.length)) ∧
      (jsTruthyStr t.imageType = false → jsTruthyStr t.chartType = false →
        jsTruthyStr t.videoType = true →
        resultForGemini (some t) = .videoPayload t.title t.url) ∧
      (jsTruthyStr t.imageType = false → jsTruthyStr t.chartType = false →
        jsTruthyStr t.videoType = false →
        resultForGemini (some t) = .passthrough (some t)) ∧
      (∀ pts, t.data = some pts → t.data.map List.length = some pts.length) := by
  refine ⟨?_, ?_, ?_, ?_, ?_⟩
  · intro h1
    simp [resultForGemini, h1]
  · intro h1 h2
    simp [resultForGemini, h1, h2]
  · intro h1 h2 h3
    simp [resultForGemini, h1, h2, h3]
  · intro h1 h2 h3
    simp [resultForGemini, h1, h2, h3]
  · intro pts hp
    simp [hp]

/-- C5 witness: a `{_chartType: "scatter"}` result with a 3-point data
array is sanitized to the chart payload with `dataPoints = 3`. -/
theorem resultForGemini_classifier_witness :
    resultForGemini (some ⟨none, some "scatter", none, none, none, none, none,
        some [⟨1, 2, "a"⟩, ⟨3, 4, "b"⟩, ⟨5, 6, "c"⟩]⟩) =
      .chartPayload (some "scatter") (some 3) :=
  (resultForGemini_classifier _).2.1 rfl rfl

/-- C9: `executeJsonTool` is total at its public interface: a `null`,
`undefined` or empty `data` argument yields the plain `{error: 'No JSON
data loaded.'}` object for every tool name and arguments, and on non-empty
data an unknown tool name yields an `{error}` object naming the tool;
being a total function, it throws nothing. -/
theorem executeJsonTool_total :
    (∀ (dateNum : Option String → Float) (toolName : String) (args : JsonToolArgs),
        executeJsonTool dateNum toolName args none = .error "No JSON data loaded.") ∧
      (∀ (dateNum : Option String → Float) (toolName : String) (args : JsonToolArgs),
        executeJsonTool dateNum toolName args (some []) = .error "No JSON data loaded.") ∧
      (∀ (dateNum : Option String → Float) (toolName : String) (args : JsonToolArgs)
          (v : VideoItem) (vs : List VideoItem),
        toolName ≠ "compute_stats_json" → toolName ≠ "plot_metric_vs_time" →
        toolName ≠ "play_video" →
        executeJsonTool dateNum toolName args (some (v :: vs)) =
          .error ("Unknown JSON tool: " ++ toolName)) := by
  refine ⟨?_, ?_, ?_⟩
  · intro dateNum toolName args
    rfl
  · intro dateNum toolName args
    rfl
  · intro dateNum toolName args v vs h1 h2 h3
    simp [executeJsonTool, h1, h2, h3]

/-- C9 witness: the guard at `none` and the unknown tool `"foo"` on a
one-record list. -/
theorem executeJsonTool_total_witness :
    executeJsonTool (fun _ => 0) "foo" {} none = .error "No JSON data loaded." ∧
      executeJsonTool (fun _ => 0) "foo" {}
          (some [⟨"id1", none, none, none, none, none, none, none, none⟩]) =
        .error ("Unknown JSON tool: " ++ "foo") :=
  ⟨executeJsonTool_total.1 _ _ _,
    executeJsonTool_total.2.2 _ _ _ _ _ (by decide) (by decide) (by decide)⟩

/-- The `current` values of the loop's progress events, as a filterMap
over the slot indices. -/
theorem loopProgress_currents (rs : List VideoRenderer) (limit : Nat) :
    progressCurrents (loopProgress rs limit) =
      (List.range limit).filterMap
        fun i => ((rs.get? i).bind VideoRenderer.videoId).map fun _ => i + 1 := by
  unfold progressCurrents loopProgress
  rw [List.filterMap_filterMap]
  have h : ∀ i : Nat,
      (((rs.get? i).bind VideoRenderer.videoId).map fun _ =>
          IngestEvent.progress (i + 1) limit (roundPct (i + 1) limit)).bind
        (fun e => match e with
          | .progress c _ _ => some c
          | _ => none) =
      ((rs.get? i).bind VideoRenderer.videoId).map fun _ => i + 1 := by
    intro i
    cases ((rs.get? i).bind VideoRenderer.videoId) <;> rfl
  rw [funext h]

/-- Progress `current` values are strictly increasing across the stream:
each skipped slot only widens the gap. -/
theorem loopProgress_currents_pairwise (rs : List VideoRenderer) (limit : Nat) :
    List.Pairwise (· < ·) (progressCurrents (loopProgress rs limit)) := by
  rw [loopProgress_currents]
  refine List.Pairwise.filterMap _ ?_ (List.pairwise_lt_range limit)
  intro a a' hlt b hb b' hb'
  cases h : ((rs.get? a).bind VideoRenderer.videoId) <;> rw [h] at hb <;> simp at hb
  cases h2 : ((rs.get? a').bind VideoRenderer.videoId) <;> rw [h2] at hb' <;> simp at hb'
  omega

/-- C2 counterexample: with three renderers of which the second lacks a
`videoId`, the run emits `current = 1` then `current = 3` — the claimed
"strictly increases by 1 per event" fails (the skipped slot is consumed
without an event). -/
theorem channelEvents_counterexample :
    progressCurrents (channelEvents (.ok [⟨some "a"⟩, ⟨none⟩, ⟨some "b"⟩]) (.num 3)) =
        [1, 3] ∧
      ¬ List.Chain' (fun a b => b = a + 1)
        (progressCurrents (channelEvents (.ok [⟨some "a"⟩, ⟨none⟩, ⟨some "b"⟩]) (.num 3))) := by
  refine ⟨rfl, ?_⟩
  intro h
  have h2 : List.Chain' (fun a b => b = a + 1) [1, 3] := h
  have h3 := (List.chain'_cons.mp h2).1
  omega

/-- C2 (amended): every run's stream is some progress events followed by
exactly one terminal event; progress `current` values strictly increase
(by exactly 1 only when no in-limit entry lacks an id — a skipped entry
consumes its slot); every progress event has `percent = round(current /
total * 100)`, `1 ≤ current ≤ total`, and `total` fixed to the effective
limit of the run's renderer list; a fatal fetch/extract/navigate failure
yields the single `error` event and no progress events; and when every
in-limit entry has an id the currents are exactly `1, 2, ..., limit`. -/
theorem channelEvents_amended (stage : Except String (List VideoRenderer))
    (mv : MaxVideosInput) :
    (∃ ps t, channelEvents stage mv = ps ++ [t] ∧ t.isTerminal = true ∧
        ∀ e ∈ ps, e.isTerminal = false) ∧
      List.Pairwise (· < ·) (progressCurrents (channelEvents stage mv)) ∧
      (∀ c t p, IngestEvent.progress c t p ∈ channelEvents stage mv →
        p = roundPct c t ∧ 1 ≤ c ∧ c ≤ t ∧
          ∀ rs, stage = .ok rs → t = (ingestLimit rs.length mv).toNat) ∧
      (∀ m, stage = .error m → channelEvents stage mv = [.error m]) ∧
      (∀ rs, stage = .ok rs →
        (∀ i, i < (ingestLimit rs.length mv).toNat →
          ((rs.get? i).bind VideoRenderer.videoId).isSome = true) →
        progressCurrents (channelEvents stage mv) =
          List.range' 1 (ingestLimit rs.length mv).toNat) := by
  refine ⟨?_, ?_, ?_, ?_, ?_⟩
  · cases stage with
    | error m => exact ⟨[], .error m, rfl, rfl, by simp⟩
    | ok rs =>
      refine ⟨loopProgress rs (ingestLimit rs.length mv).toNat,
        .done (loopIds rs (ingestLimit rs.length mv).toNat), rfl, rfl, ?_⟩
      intro e he
      obtain ⟨i, _, hmap⟩ := List.mem_filterMap.mp he
      obtain ⟨x, _, rfl⟩ := Option.map_eq_some'.mp hmap
      rfl
  · cases stage with
    | error m => simp [channelEvents, progressCurrents]
    | ok rs =>
      have h := loopProgress_currents_pairwise rs (ingestLimit rs.length mv).toNat
      simpa [channelEvents, progressCurrents, List.filterMap_append] using h
  · intro c t p hmem
    cases stage with
    | error m =>
      simp [channelEvents] at hmem
    | ok rs =>
      simp only [channelEvents, List.mem_append] at hmem
      rcases hmem with hmem | hmem
      · obtain ⟨i, hi, hmap⟩ := List.mem_filterMap.mp hmem
        obtain ⟨x, _, heq⟩ := Option.map_eq_some'.mp hmap
        injection heq with h1 h2 h3
        subst h1
        subst h2
        subst h3
        have hi2 := List.mem_range.mp hi
        refine ⟨rfl, by omega, by omega, ?_⟩
        intro rs2 hrs
        injection hrs with hrs
        subst hrs
        rfl
      · simp at hmem
  · intro m hm
    subst hm
    rfl
  · intro rs hrs hall
    subst hrs
    simp only [channelEvents, progressCurrents, List.filterMap_append]
    have hdone : (List.filterMap
        (fun e => match e with
          | IngestEvent.progress c _ _ => some c
          | _ => none)
        [IngestEvent.done (loopIds rs (ingestLimit rs.length mv).toNat)]) = [] := rfl
    rw [hdone, List.append_nil]
    have hcur := loopProgress_currents rs (ingestLimit rs.length mv).toNat
    unfold progressCurrents at hcur
    rw [hcur]
    rw [filterMap_eq_map_of_forall_some _ (fun i => i + 1)]
    · rw [List.range'_eq_map_range]
      simp [Nat.add_comm]
    · intro i hi
      obtain ⟨x, hx⟩ := Option.isSome_iff_exists.mp (hall i (List.mem_range.mp hi))
      rw [hx]
      rfl

/-- C2 witness: the amended statement applied to a run that fails at the
fetch stage. -/
theorem channelEvents_amended_witness :
    channelEvents (.error "Failed to fetch channel page: HTTP 404") .absent =
      [.error "Failed to fetch channel page: HTTP 404"] :=
  (channelEvents_amended (.error "Failed to fetch channel page: HTTP 404") .absent).2.2.2.1
    "Failed to fetch channel page: HTTP 404" rfl

/-- The loop invariant for a model that requests a function call on every
round: after `fuel` further rounds starting at stream index `k`, the final
text is that of response `k + fuel` and the tool-call list grows by one
record per round. -/
theorem chatLoopAux_spec (responses : Nat → GResponse)
    (execF : String → String → Option RawResult)
    (H : ∀ k, (findFunctionCall (responses k).parts).isSome = true) :
    ∀ fuel k ch tc vc sent,
      (chatLoopAux responses execF fuel k (responses k) ch tc vc sent).text =
          responseText (responses (k + fuel)) ∧
        (chatLoopAux responses execF fuel k (responses k) ch tc vc sent).toolCalls =
          tc ++ (List.range fuel).filterMap fun j => callRecordAt responses execF (k + j) := by
  intro fuel
  induction fuel with
  | zero =>
    intro k ch tc vc sent
    exact ⟨rfl, by simp [chatLoopAux]⟩
  | succ n ih =>
    intro k ch tc vc sent
    obtain ⟨fc, hfc⟩ := Option.isSome_iff_exists.mp (H k)
    have hrec : callRecordAt responses execF k =
        some ⟨fc.name, fc.args, execF fc.name fc.args⟩ := by
      unfold callRecordAt
      rw [hfc]
      rfl
    unfold chatLoopAux
    rw [hfc]
    have step := ih (k + 1)
      (if chartOrImageMarker (execF fc.name fc.args) then ch ++ [execF fc.name fc.args] else ch)
      (tc ++ [⟨fc.name, fc.args, execF fc.name fc.args⟩])
      (if videoMarker (execF fc.name fc.args) then vc ++ [execF fc.name fc.args] else vc)
      (sent ++ [resultForGemini (execF fc.name fc.args)])
    refine ⟨?_, ?_⟩
    · rw [step.1]
      have harith : k + 1 + n = k + (n + 1) := by omega
      rw [harith]
    · rw [step.2]
      rw [List.range_succ_eq_map, List.filterMap_cons, List.filterMap_map]
      have hfun : ((fun j => callRecordAt responses execF (k + j)) ∘ Nat.succ) =
          fun j => callRecordAt responses execF (k + 1 + j) := by
        funext j
        simp only [Function.comp]
        have : k + Nat.succ j = k + 1 + j := by omega
        rw [this]
      rw [hfun]
      have hzero : callRecordAt responses execF (k + 0) =
          some ⟨fc.name, fc.args, execF fc.name fc.args⟩ := by
        rw [Nat.add_zero]
        exact hrec
      rw [hzero, List.append_assoc, List.singleton_append]

/-- C4: when the model returns a function-call part on every round,
`chatWithTools` terminates (it is a total function — the round budget is a
bound, not an error path), returns the text of the response available
after the 8th round, and the accumulated tool-call list records exactly 8
callback invocations, one per round, each holding the callback's result. -/
theorem chatWithTools_roundBudget (responses : Nat → GResponse)
    (execF : String → String → Option RawResult)
    (H : ∀ k, (findFunctionCall (responses k).parts).isSome = true) :
    (chatWithTools responses execF).text = responseText (responses 8) ∧
      (chatWithTools responses execF).toolCalls =
        (List.range 8).filterMap (fun j => callRecordAt responses execF j) ∧
      (chatWithTools responses execF).toolCalls.length = 8 := by
  have h := chatLoopAux_spec responses execF H 8 0 [] [] [] []
  unfold chatWithTools
  refine ⟨h.1, ?_, ?_⟩
  · rw [h.2]
    simp
  · rw [h.2]
    simp only [List.nil_append]
    rw [length_filterMap_of_forall_isSome]
    · simp
    · intro j _
      obtain ⟨fc, hfc⟩ := Option.isSome_iff_exists.mp (H (0 + j))
      unfold callRecordAt
      rw [hfc]
      rfl

/-- C4 witness: a model that requests the tool `"t"` on every round; the
loop makes exactly 8 calls and ends with the 8th round's (empty) text. -/
theorem chatWithTools_roundBudget_witness :
    (chatWithTools (fun _ => ⟨[⟨some ⟨"t", "a"⟩, none⟩]⟩) (fun _ _ => none)).toolCalls.length =
        8 ∧
      (chatWithTools (fun _ => ⟨[⟨some ⟨"t", "a"⟩, none⟩]⟩) (fun _ _ => none)).text =
        responseText ((fun _ => (⟨[⟨some ⟨"t", "a"⟩, none⟩]⟩ : GResponse)) 8) := by
  have H : ∀ k : Nat,
      (findFunctionCall ((fun _ => (⟨[⟨some ⟨"t", "a"⟩, none⟩]⟩ : GResponse)) k).parts).isSome =
        true := fun _ => rfl
  exact ⟨(chatWithTools_roundBudget _ _ H).2.2, (chatWithTools_roundBudget _ _ H).1⟩

/-- C6: the extractor succeeds exactly when one of the two recognized
patterns matches somewhere in the page (the `</script>`-terminated form
taking priority) and the resulting first capture parses as JSON; no
capture fails with the extraction error, whose message states both
plausible causes (nonexistent channel vs. upstream blocking); a capture
that does not parse fails with the distinct parse error; nothing else in
the page is ever consulted. -/
theorem extractYtData_contract {α : Type} (parse : List Char → Option α)
    (html : List Char) :
    (ytFirstCapture html = none →
        extractYtData parse html = .error couldNotExtractMsg) ∧
      (∀ cap, ytFirstCapture html = some cap →
        (∀ j, parse cap = some j → extractYtData parse html = .ok j) ∧
          (parse cap = none → extractYtData parse html = .error parseFailMsg)) ∧
      (∀ j, extractYtData parse html = .ok j ↔
        ∃ cap, ytFirstCapture html = some cap ∧ parse cap = some j) ∧
      containsSub ("may not exist".data) couldNotExtractMsg.data = true ∧
      containsSub ("blocked".data) couldNotExtractMsg.data = true ∧
      couldNotExtractMsg ≠ parseFailMsg := by
  refine ⟨?_, ?_, ?_, by decide, by decide, by decide⟩
  · intro h
    simp [extractYtData, h]
  · intro cap hcap
    constructor
    · intro j hj
      simp [extractYtData, hcap, hj]
    · intro hj
      simp [extractYtData, hcap, hj]
  · intro j
    constructor
    · intro h
      unfold extractYtData at h
      cases hcap : ytFirstCapture html with
      | none =>
        simp [hcap] at h
      | some cap =>
        rw [hcap] at h
        cases hp : parse cap with
        | none =>
          simp [hp] at h
        | some j2 =>
          simp only [hp] at h
          injection h with h
          exact ⟨cap, rfl, by rw [hp, h]⟩
    · rintro ⟨cap, hcap, hp⟩
      simp [extractYtData, hcap, hp]

/-- C6 witness: both recognized forms are accepted on concrete pages — the
`</script>`-terminated form and the `var `-terminated form — while a page
with other JSON but no `ytInitialData` assignment fails with the
extraction error, and a matching page whose blob the parser rejects fails
with the parse error. -/
theorem extractYtData_contract_witness :
    extractYtData (fun c => if c = ("\x7b1:2\x7d".data) then some 1 else none)
        ("<p>var ytInitialData = \x7b1:2\x7d;</script>x".data) = .ok 1 ∧
      extractYtData (fun c => if c = ("\x7b3:4\x7d".data) then some 2 else none)
        ("window.ytInitialData = \x7b3:4\x7d;var y = 5;".data) = .ok 2 ∧
      extractYtData (fun _ => some 3) ("<p>other \x7b5:6\x7d json</p>".data) =
        .error couldNotExtractMsg ∧
      extractYtData (fun _ => (none : Option Nat))
        ("<p>var ytInitialData = \x7bbad\x7d;</script>x".data) =
        .error parseFailMsg := by
  refine ⟨?_, ?_, ?_, ?_⟩
  · exact ((extractYtData_contract _ _).2.1 ("\x7b1:2\x7d".data) (by decide)).1 1 (by decide)
  · exact ((extractYtData_contract _ _).2.1 ("\x7b3:4\x7d".data) (by decide)).1 2 (by decide)
  · exact (extractYtData_contract _ _).1 (by decide)
  · exact ((extractYtData_contract _ _).2.1 ("\x7bbad\x7d".data) (by decide)).2 rfl

/-- The legacy section scan and the spec-side legacy probe agree: the
probe is `some` of the scan result exactly when the scan found entries. -/
theorem legacyProbeAux_eq : ∀ sections : List LegacySection,
    legacyProbeAux sections =
      if (legacyScan sections).isEmpty then none else some (legacyScan sections) := by
  intro sections
  induction sections with
  | nil => rfl
  | cons s rest ih =>
    unfold legacyProbeAux legacyScan
    cases h : (s.items.filterMap LegacyItem.gridVideoRenderer).isEmpty with
    | true => simpa [h] using ih
    | false => simp [h]

/-- The navigator's tab scan and the spec-side ordered probing agree. -/
theorem firstProbe_eq : ∀ tabs : List ChannelTab,
    firstProbe tabs = if (navScan tabs).isEmpty then none else some (navScan tabs) := by
  intro tabs
  induction tabs with
  | nil => rfl
  | cons t rest ih =>
    unfold firstProbe navScan tabProbe
    cases htr : t.tabRenderer with
    | none => simpa [Option.orElse] using ih
    | some tr =>
      cases hg : tr.richGridContents with
      | none =>
        cases hs : tr.sectionList with
        | none => simpa [gridProbe, hg, hs, Option.orElse] using ih
        | some sections =>
          by_cases hl : legacyScan sections = [] <;>
            simp [gridProbe, hg, hs, hl, ih, Option.orElse, legacyProbeAux_eq]
      | some items =>
        cases hi : items.isEmpty with
        | true =>
          have hii : items = [] := List.isEmpty_iff.mp hi
          subst hii
          cases hs : tr.sectionList with
          | none => simpa [gridProbe, hg, hs, Option.orElse] using ih
          | some sections =>
            by_cases hl : legacyScan sections = [] <;>
              simp [gridProbe, hg, hs, hl, ih, Option.orElse, legacyProbeAux_eq]
        | false =>
          by_cases hfg : items.filterMap GridItem.videoRenderer = []
          · have hfa : ∀ a ∈ items, a.videoRenderer = none :=
              List.filterMap_eq_nil_iff.mp hfg
            cases hs : tr.sectionList with
            | none =>
              simpa [gridProbe, hg, hs, hi, hfg, iff_true_intro hfa, Option.orElse] using ih
            | some sections =>
              by_cases hl : legacyScan sections = [] <;>
                simp [gridProbe, hg, hs, hi, hfg, iff_true_intro hfa, hl, ih, Option.orElse,
                  legacyProbeAux_eq]
          · have hfa : ¬ ∀ a ∈ items, a.videoRenderer = none := fun h =>
              hfg (List.filterMap_eq_nil_iff.mpr h)
            simp [gridProbe, hg, hi, hfg, iff_false_intro hfa, Option.orElse]

/-- The grid probe finds nothing exactly when the grid container (if
present) filters to no entries. -/
theorem gridProbe_none_iff (tr : TabRenderer) :
    gridProbe tr = none ↔
      ∀ items, tr.richGridContents = some items →
        items.filterMap GridItem.videoRenderer = [] := by
  cases hg : tr.richGridContents with
  | none => simp [gridProbe, hg]
  | some items =>
    by_cases hfg : items.filterMap GridItem.videoRenderer = []
    · have hfa := List.filterMap_eq_nil_iff.mp hfg
      simp [gridProbe, hg, hfg, iff_true_intro hfa]
    · have hfa : ¬ ∀ a ∈ items, a.videoRenderer = none := fun h =>
        hfg (List.filterMap_eq_nil_iff.mpr h)
      simp [gridProbe, hg, hfg]
      simpa using hfa

/-- The legacy probe finds nothing exactly when every section filters to
no entries. -/
theorem legacyProbeAux_none_iff : ∀ sections : List LegacySection,
    legacyProbeAux sections = none ↔
      ∀ s ∈ sections, s.items.filterMap LegacyItem.gridVideoRenderer = [] := by
  intro sections
  induction sections with
  | nil => simp [legacyProbeAux]
  | cons s rest ih =>
    unfold legacyProbeAux
    by_cases hfg : s.items.filterMap LegacyItem.gridVideoRenderer = []
    · have hfa := List.filterMap_eq_nil_iff.mp hfg
      simp [hfg, ih, iff_true_intro hfa]
    · have hfa : ¬ ∀ a ∈ s.items, a.gridVideoRenderer = none := fun h =>
        hfg (List.filterMap_eq_nil_iff.mpr h)
      simp [hfg, iff_false_intro hfa]

/-- Ordered probing fails exactly when every tab/container combination is
empty. -/
theorem firstProbe_none_iff : ∀ tabs : List ChannelTab,
    firstProbe tabs = none ↔ allCombinationsEmpty tabs := by
  intro tabs
  induction tabs with
  | nil => simp [firstProbe, allCombinationsEmpty]
  | cons t rest ih =>
    unfold firstProbe
    have horelse : ∀ (a : Option (List VideoRenderer)) (f : Unit → Option (List VideoRenderer)),
        (a.orElse f = none ↔ a = none ∧ f () = none) := by
      intro a f
      cases a <;> simp [Option.orElse]
    rw [horelse]
    have hcons : allCombinationsEmpty (t :: rest) ↔
        ((∀ tr, t.tabRenderer = some tr →
          (∀ items, tr.richGridContents = some items →
            items.filterMap GridItem.videoRenderer = []) ∧
          (∀ sections, tr.sectionList = some sections →
            ∀ s ∈ sections, s.items.filterMap LegacyItem.gridVideoRenderer = [])) ∧
          allCombinationsEmpty rest) := by
      unfold allCombinationsEmpty
      simp [List.forall_mem_cons]
    rw [hcons, ih]
    apply and_congr_left
    intro _
    cases htr : t.tabRenderer with
    | none => simp [tabProbe, htr]
    | some tr =>
      have h2 : tabProbe t = (gridProbe tr).orElse fun _ => tr.sectionList.bind legacyProbeAux := by
        simp [tabProbe, htr]
      rw [h2, horelse]
      rw [gridProbe_none_iff]
      have h3 : (tr.sectionList.bind legacyProbeAux = none ↔
          ∀ sections, tr.sectionList = some sections →
            ∀ s ∈ sections, s.items.filterMap LegacyItem.gridVideoRenderer = []) := by
        cases hs : tr.sectionList with
        | none => simp
        | some sections => simp [legacyProbeAux_none_iff]
      rw [h3]
      constructor
      · rintro ⟨ha, hb⟩
        intro tr2 htr2
        injection htr2 with htr2
        subst htr2
        exact ⟨ha, hb⟩
      · intro h
        exact h tr rfl

/-- C7: the navigator equals its spec — per tab the modern grid container
is probed before the legacy sectioned list, a non-empty grid result wins
over any legacy content, scanning stops at the first tab/container
yielding entries (returned in container order, both sides being the same
order-preserving `filterMap`), and the single `No videos found` error
occurs exactly when every tab/container combination is empty. -/
theorem navigate_spec_equiv (tabs : List ChannelTab) :
    navigate tabs = navigateSpec tabs ∧
      (navigate tabs = .error noVideosMsg ↔ allCombinationsEmpty tabs) := by
  have h := firstProbe_eq tabs
  constructor
  · unfold navigate navigateSpec
    rw [h]
    cases he : (navScan tabs).isEmpty <;> simp [he]
  · rw [← firstProbe_none_iff, h]
    unfold navigate
    cases he : (navScan tabs).isEmpty <;> simp [he]

/-- C7 witness: on a blob with both containers populated in the same tab,
the grid's entries win; on an all-empty blob the single error appears. -/
theorem navigate_spec_equiv_witness :
    navigate [⟨some ⟨some [⟨some ⟨some "g"⟩⟩], some [⟨[⟨some ⟨some "l"⟩⟩]⟩]⟩⟩] =
        navigateSpec [⟨some ⟨some [⟨some ⟨some "g"⟩⟩], some [⟨[⟨some ⟨some "l"⟩⟩]⟩]⟩⟩] ∧
      navigate [⟨some ⟨some [], some []⟩⟩] = .error noVideosMsg :=
  ⟨(navigate_spec_equiv _).1,
    (navigate_spec_equiv [⟨some ⟨some [], some []⟩⟩]).2.mpr (by
      intro t ht tr htr
      simp at ht
      subst ht
      injection htr with htr
      subst htr
      constructor
      · intro items hi
        injection hi with hi
        subst hi
        rfl
      · intro sections hs
        injection hs with hs
        subst hs
        simp)⟩

/-- Collapser equation: whitespace inside a run is dropped. -/
theorem collapseAux_cons_ws_true (d : Char) (rest : List Char) (h : jsWs d = true) :
    collapseAux true (d :: rest) = collapseAux true rest := by
  simp [collapseAux, h]

/-- Collapser equation: whitespace starting a run emits one space. -/
theorem collapseAux_cons_ws_false (d : Char) (rest : List Char) (h : jsWs d = true) :
    collapseAux false (d :: rest) = ' ' :: collapseAux true rest := by
  simp [collapseAux, h]

/-- Collapser equation: a non-whitespace character is copied. -/
theorem collapseAux_cons_nws (d : Char) (rest : List Char) (p : Bool) (h : jsWs d = false) :
    collapseAux p (d :: rest) = d :: collapseAux false rest := by
  simp [collapseAux, h]

/-- Every whitespace character the collapser emits is a plain space. -/
theorem collapseAux_ws_is_space :
    ∀ (l : List Char) (p : Bool) (c : Char), c ∈ collapseAux p l → jsWs c = true → c = ' ' := by
  intro l
  induction l with
  | nil =>
    intro p c hc
    simp [collapseAux] at hc
  | cons d rest ih =>
    intro p c hc hws
    cases hd : jsWs d with
    | true =>
      cases p with
      | true =>
        rw [collapseAux_cons_ws_true d rest hd] at hc
        exact ih true c hc hws
      | false =>
        rw [collapseAux_cons_ws_false d rest hd] at hc
        cases List.mem_cons.mp hc with
        | inl h => exact h
        | inr h => exact ih true c h hws
    | false =>
      rw [collapseAux_cons_nws d rest p hd] at hc
      cases List.mem_cons.mp hc with
      | inl h =>
        subst h
        rw [hws] at hd
        cases hd
      | inr h => exact ih false c h hws

/-- After a whitespace run was just collapsed, the next emitted character
is not whitespace. -/
theorem collapseAux_head_not_ws :
    ∀ (l : List Char) (c : Char), (collapseAux true l).head? = some c → jsWs c = false := by
  intro l
  induction l with
  | nil =>
    intro c hc
    simp [collapseAux] at hc
  | cons d rest ih =>
    intro c hc
    cases hd : jsWs d with
    | true =>
      rw [collapseAux_cons_ws_true d rest hd] at hc
      exact ih c hc
    | false =>
      rw [collapseAux_cons_nws d rest true hd, List.head?_cons] at hc
      injection hc with hc
      subst hc
      exact hd

/-- The collapser never emits two adjacent whitespace characters. -/
theorem collapseAux_chain :
    ∀ (l : List Char) (p : Bool),
      List.Chain' (fun a b => ¬(jsWs a = true ∧ jsWs b = true)) (collapseAux p l) := by
  intro l
  induction l with
  | nil =>
    intro p
    simp [collapseAux]
  | cons d rest ih =>
    intro p
    cases hd : jsWs d with
    | true =>
      cases p with
      | true =>
        rw [collapseAux_cons_ws_true d rest hd]
        exact ih true
      | false =>
        rw [collapseAux_cons_ws_false d rest hd, List.chain'_cons']
        refine ⟨?_, ih true⟩
        intro y hy
        intro ⟨_, hws⟩
        rw [collapseAux_head_not_ws rest y hy] at hws
        cases hws
    | false =>
      rw [collapseAux_cons_nws d rest p hd, List.chain'_cons']
      refine ⟨?_, ih false⟩
      intro y _
      intro ⟨hws, _⟩
      rw [hd] at hws
      cases hws

/-- Every character of the final transcript comes from the collapsed
character list. -/
theorem transcriptText_mem (j : SubtitleJson) :
    ∀ c ∈ (transcriptText j).data,
      c ∈ collapseWs (((j.events.getD []).flatMap fun e =>
        (e.segs.getD []).map CaptionSeg.utf8).filterMap
          (fun o => o.bind fun s => if s = "" then none else some s) |>
            (String.intercalate " ") |>.data.map fun c => if c == '\n' then ' ' else c) := by
  intro c hc
  have h1 := List.take_subset 5000 _ hc
  have h2 := (List.dropWhile_suffix jsWs).subset (List.mem_reverse.mp
    ((List.dropWhile_suffix jsWs).subset (List.mem_reverse.mp h1)))
  exact h2

/-- The transcript: at most 5000 characters, whitespace only as single
plain spaces (no newlines, no runs). -/
theorem transcriptText_props (j : SubtitleJson) :
    (transcriptText j).length ≤ 5000 ∧
      (∀ c ∈ (transcriptText j).data, jsWs c = true → c = ' ') ∧
      List.Chain' (fun a b => ¬(jsWs a = true ∧ jsWs b = true)) (transcriptText j).data := by
  refine ⟨?_, ?_, ?_⟩
  · exact List.length_take_le 5000 _
  · intro c hc hws
    exact collapseAux_ws_is_space _ false c (transcriptText_mem j c hc) hws
  · have h1 := collapseAux_chain (((j.events.getD []).flatMap fun e =>
      (e.segs.getD []).map CaptionSeg.utf8).filterMap
        (fun o => o.bind fun s => if s = "" then none else some s) |>
          (String.intercalate " ") |>.data.map fun c => if c == '\n' then ' ' else c) false
    have hcomm : ∀ x : List Char,
        List.Chain' (fun a b => ¬(jsWs a = true ∧ jsWs b = true)) x →
        List.Chain' (fun a b => ¬(jsWs a = true ∧ jsWs b = true)) x.reverse := by
      intro x hx
      rw [List.chain'_reverse]
      exact hx.imp fun a b hab hc => hab ⟨hc.2, hc.1⟩
    have h2 := h1.suffix (List.dropWhile_suffix jsWs)
    have h3 := (hcomm _ h2).suffix (List.dropWhile_suffix jsWs)
    have h4 := hcomm _ h3
    exact h4.prefix (List.take_prefix 5000 _)

/-- C8 counterexample: when the subtitle file exists but its content does
not parse as JSON, the swallowed parse error skips `unlinkSync`, so the
temporary file is NOT deleted — against the claimed "deleted afterward
regardless of success" (the transcript is still empty and the item
continues). -/
theorem transcriptStep_delete_counterexample :
    ¬ (transcriptStep (some none)).2 = true := by
  decide

/-- C8 (amended): the subtitle command carries the fixed 20-second
timeout; a missing output file or a file whose content fails to parse
yields the empty transcript without aborting the item, but the temporary
file is deleted only on the parse-success path (a parse failure leaves it
behind); on success the transcript is the in-order concatenation of the
caption segment texts with whitespace collapsed to single spaces and the
result truncated to 5000 characters. -/
theorem transcriptStep_amended :
    (∀ v, (ytDlpInvocation v).timeoutMs = 20000) ∧
      transcriptStep none = ("", false) ∧
      transcriptStep (some none) = ("", false) ∧
      (∀ j, transcriptStep (some (some j)) = (transcriptText j, true)) ∧
      (∀ f, (transcriptStep f).1.length ≤ 5000) ∧
      (∀ j, ∀ c ∈ (transcriptText j).data, jsWs c = true → c = ' ') ∧
      (∀ j, List.Chain' (fun a b => ¬(jsWs a = true ∧ jsWs b = true))
        (transcriptText j).data) := by
  refine ⟨fun _ => rfl, rfl, rfl, fun _ => rfl, ?_, ?_, ?_⟩
  · intro f
    match f with
    | none => decide
    | some none => decide
    | some (some j) => exact (transcriptText_props j).1
  · intro j
    exact (transcriptText_props j).2.1
  · intro j
    exact (transcriptText_props j).2.2

/-- C8 witness: the amended statement at a concrete parsed subtitle file
and at the fixed command invocation. -/
theorem transcriptStep_amended_witness :
    (ytDlpInvocation "abc").timeoutMs = 20000 ∧
      transcriptStep (some (some ⟨some [⟨some [⟨some "hi\nthere"⟩]⟩]⟩)) =
        (transcriptText ⟨some [⟨some [⟨some "hi\nthere"⟩]⟩]⟩, true) ∧
      (transcriptStep (some (some ⟨some [⟨some [⟨some "hi\nthere"⟩]⟩]⟩))).1.length ≤ 5000 :=
  ⟨transcriptStep_amended.1 "abc", transcriptStep_amended.2.2.2.1 _,
    transcriptStep_amended.2.2.2.2.1 _⟩

/-- Sorting a non-empty list leaves a first element. -/
theorem mergeSort_head_some {β : Type} (v : β) (vs : List β) (r : β → β → Bool) :
    ∃ w, ((v :: vs).mergeSort r).head? = some w := by
  cases h : (v :: vs).mergeSort r with
  | nil =>
    have hlen : ((v :: vs).mergeSort r).length = (v :: vs).length :=
      List.length_mergeSort (v :: vs)
    rw [h] at hlen
    simp at hlen
  | cons a l => exact ⟨a, rfl⟩

/-- A selected video always yields the tagged card. -/
theorem playVideo_card_of_some (w : VideoItem) :
    ∃ id ti th u du vc lc,
      playCard w = .videoCard "youtube" id ti th u du vc lc :=
  ⟨w.video_id, jsOrEmpty w.title, jsOrEmpty w.thumbnail, _, jsOrEmpty w.duration, _, _, rfl⟩

/-- The selection never comes back empty on a non-empty data list: every
criteria branch heads a sorted permutation of the list, and the ordinal
and query branches fall back to the first video. -/
theorem playVideoSelect_isSome (dateNum : Option String → Float) (args : JsonToolArgs)
    (v : VideoItem) (vs : List VideoItem) :
    ∃ w, playVideoSelect dateNum args (v :: vs) = some w := by
  unfold playVideoSelect
  by_cases hc : jsTruthyStr args.criteria = true
  · simp only [hc, if_true]
    cases h1 : testMostViewed (jsToLower (args.criteria.getD "")) with
    | true =>
      simp only [h1, if_true]
      exact mergeSort_head_some v vs _
    | false =>
    simp only [h1, Bool.false_eq_true, if_false]
    cases h2 : testMostLiked (jsToLower (args.criteria.getD "")) with
    | true =>
      simp only [h2, if_true]
      exact mergeSort_head_some v vs _
    | false =>
    simp only [h2, Bool.false_eq_true, if_false]
    cases h3 : testMostCommented (jsToLower (args.criteria.getD "")) with
    | true =>
      simp only [h3, if_true]
      exact mergeSort_head_some v vs _
    | false =>
    simp only [h3, Bool.false_eq_true, if_false]
    cases h4 : testLeastViewed (jsToLower (args.criteria.getD "")) with
    | true =>
      simp only [h4, if_true]
      exact mergeSort_head_some v vs _
    | false =>
    simp only [h4, Bool.false_eq_true, if_false]
    cases h5 : testLeastLiked (jsToLower (args.criteria.getD "")) with
    | true =>
      simp only [h5, if_true]
      exact mergeSort_head_some v vs _
    | false =>
    simp only [h5, Bool.false_eq_true, if_false]
    cases h6 : testLeastCommented (jsToLower (args.criteria.getD "")) with
    | true =>
      simp only [h6, if_true]
      exact mergeSort_head_some v vs _
    | false =>
    simp only [h6, Bool.false_eq_true, if_false]
    cases h7 : testLatest (jsToLower (args.criteria.getD "")) with
    | true =>
      simp only [h7, if_true]
      exact mergeSort_head_some v vs _
    | false =>
    simp only [h7, Bool.false_eq_true, if_false]
    cases h8 : testOldest (jsToLower (args.criteria.getD "")) with
    | true =>
      simp only [h8, if_true]
      exact mergeSort_head_some v vs _
    | false =>
      simp only [h8, Bool.false_eq_true, if_false, List.head?_cons]
      exact ⟨v, rfl⟩
  · simp only [hc, if_false]
    by_cases ho : args.ordinal.isSome = true
    · simp only [ho, if_true]
      cases hg : (v :: vs).get? (max 0 (args.ordinal.getD 0 - 1)).toNat with
      | none => exact ⟨v, by simp [hg, Option.orElse]⟩
      | some w => exact ⟨w, by simp [hg, Option.orElse]⟩
    · simp only [ho, if_false]
      by_cases hq : jsTruthyStr args.query = true
      · simp only [hq, if_true]
        cases hf : (v :: vs).find? (fun w =>
            containsSub ((jsToLower (args.query.getD "")).data)
              ((jsToLower (jsOrEmpty w.title)).data)) with
        | none => exact ⟨v, by simp [hf, Option.orElse]⟩
        | some w => exact ⟨w, by simp [hf, Option.orElse]⟩
      · simp only [hq, if_false, List.head?_cons]
        exact ⟨v, rfl⟩

/-- C10: on a non-empty data list, `play_video` never takes its error
branch — it always returns a card tagged `_videoType: 'youtube'` with the
selected video's id, title, thumbnail and URL; and in each unmatched case
(a criteria string matching no recognized pattern, an out-of-range
ordinal, a query matching no title) it falls back to the first video of
the data array. -/
theorem playVideo_fallback (dateNum : Option String → Float) (args : JsonToolArgs)
    (v : VideoItem) (vs : List VideoItem) :
    (∃ id ti th u du vc lc,
        executeJsonTool dateNum "play_video" args (some (v :: vs)) =
          .videoCard "youtube" id ti th u du vc lc) ∧
      (∀ crit, args.criteria = some crit → crit ≠ "" →
        recognizedCriteria (jsToLower crit) = false →
        executeJsonTool dateNum "play_video" args (some (v :: vs)) = playCard v) ∧
      (jsTruthyStr args.criteria = false → ∀ n, args.ordinal = some n →
        (v :: vs).length ≤ (max 0 (n - 1)).toNat →
        executeJsonTool dateNum "play_video" args (some (v :: vs)) = playCard v) ∧
      (jsTruthyStr args.criteria = false → args.ordinal = none →
        ∀ q, args.query = some q → q ≠ "" →
        (∀ w ∈ v :: vs,
          containsSub ((jsToLower q).data) ((jsToLower (jsOrEmpty w.title)).data) = false) →
        executeJsonTool dateNum "play_video" args (some (v :: vs)) = playCard v) := by
  have hexec : executeJsonTool dateNum "play_video" args (some (v :: vs)) =
      playVideo dateNum args (v :: vs) := rfl
  refine ⟨?_, ?_, ?_, ?_⟩
  · obtain ⟨w, hw⟩ := playVideoSelect_isSome dateNum args v vs
    rw [hexec]
    unfold playVideo
    rw [hw]
    exact playVideo_card_of_some w
  · intro crit hcrit hne hrec
    rw [hexec]
    have hsel : playVideoSelect dateNum args (v :: vs) = some v := by
      unfold playVideoSelect
      have ht : jsTruthyStr args.criteria = true := by
        rw [hcrit]
        simp [jsTruthyStr, hne]
      have hgd : args.criteria.getD "" = crit := by rw [hcrit]; rfl
      unfold recognizedCriteria at hrec
      simp only [Bool.or_eq_false_iff] at hrec
      obtain ⟨⟨⟨⟨⟨⟨⟨r1, r2⟩, r3⟩, r4⟩, r5⟩, r6⟩, r7⟩, r8⟩ := hrec
      simp only [ht, if_true, hgd, r1, r2, r3, r4, r5, r6, r7, r8, Bool.false_eq_true,
        if_false, List.head?_cons]
    unfold playVideo
    rw [hsel]
  · intro hc n hn hlen
    rw [hexec]
    have hsel : playVideoSelect dateNum args (v :: vs) = some v := by
      unfold playVideoSelect
      have hg : (v :: vs).get? (max 0 ((n : Int) - 1)).toNat = none :=
        List.get?_eq_none.mpr (by simpa using hlen)
      simp only [hc, Bool.false_eq_true, if_false, hn, Option.isSome_some, if_true,
        Option.getD_some, hg, Option.orElse, List.head?_cons]
    unfold playVideo
    rw [hsel]
  · intro hc ho q hq hqne hnone
    rw [hexec]
    have hsel : playVideoSelect dateNum args (v :: vs) = some v := by
      unfold playVideoSelect
      have hf : (v :: vs).find? (fun w =>
          containsSub ((jsToLower (args.query.getD "")).data)
            ((jsToLower (jsOrEmpty w.title)).data)) = none := by
        rw [List.find?_eq_none]
        intro w hw
        rw [hq]
        simp [hnone w hw]
      have htq : jsTruthyStr args.query = true := by
        rw [hq]
        simp [jsTruthyStr, hqne]
      simp only [hc, Bool.false_eq_true, if_false, ho, Option.isSome_none, htq, if_true,
        hf, Option.orElse, List.head?_cons]
    unfold playVideo
    rw [hsel]

/-- C10 witness: an unrecognized criteria string falls back to the first
video and yields the tagged card. -/
theorem playVideo_fallback_witness :
    executeJsonTool (fun _ => 0) "play_video" { criteria := some "zzz" }
        (some [⟨"idA", some "T", none, none, none, none, some 7, none, none⟩]) =
      playCard ⟨"idA", some "T", none, none, none, none, some 7, none, none⟩ :=
  (playVideo_fallback (fun _ => 0) { criteria := some "zzz" } _ []).2.1 "zzz" rfl
    (by decide) (by decide)

end YtChat
